import Mathlib

/-!
Verification development for the RideEase recommendation-API prober
(`functions/scripts/probe.py`).

The prober is a sequential driver around four HTTP operations (health
check, get-recommendations, track-interaction, compare-models) plus an
orchestrator `run_probe_cycle` that samples users, conditionally issues
interaction-tracking calls, and computes summary statistics.

Shallow embedding: every source of nondeterminism (HTTP responses,
`random.random()`, `random.randint`, `random.choice`, `random.sample`,
wall-clock time) is provided by an explicit environment.  An HTTP call's
outcome is an `Except String body`: `Except.error msg` stands for any
exception raised inside the `try` block (transport error, timeout,
`raise_for_status` on a non-2xx status, or a JSON parse failure), and
`Except.ok` carries the parsed body together with the measured elapsed
time.  Python dictionaries whose fields are read with `.get`-with-default
are embedded as records of `Option` fields.  `float` durations are
embedded as `ℚ`.
-/

instance {ε α : Type} [DecidableEq ε] [DecidableEq α] : DecidableEq (Except ε α) := fun x y =>
  match x, y with
  | Except.ok a, Except.ok b =>
      if h : a = b then Decidable.isTrue (congrArg Except.ok h)
      else Decidable.isFalse (fun hc => h (Except.ok.inj hc))
  | Except.error a, Except.error b =>
      if h : a = b then Decidable.isTrue (congrArg Except.error h)
      else Decidable.isFalse (fun hc => h (Except.error.inj hc))
  | Except.ok _, Except.error _ => Decidable.isFalse (fun hc => Except.noConfusion hc)
  | Except.error _, Except.ok _ => Decidable.isFalse (fun hc => Except.noConfusion hc)

/-- One element of a response body's `recommendations` list; the probe
only ever reads its optional `itemId` field. -/
structure RecItem where
  itemId : Option String
deriving DecidableEq, Repr

/-- Parsed JSON body of a `POST /recommend` response, restricted to the
fields the probe reads (each read with a default, hence `Option`). -/
structure RecBody where
  recommendations : Option (List RecItem)
  model : Option String
  requestId : Option String
  latency : Option ℚ
deriving DecidableEq, Repr

/-- Normalized result record built by `get_recommendations`.  The Python
dict has different keys on the two branches; keys absent on a branch are
`none` here. -/
structure RecResult where
  status : String
  response_time : Option ℚ
  recommendations_count : ℕ
  model_used : Option String := none
  request_id : Option String := none
  latency : Option ℚ := none
  data : Option RecBody := none
  error : Option String := none
deriving DecidableEq, Repr

/-- `RecommendationProbe.get_recommendations`: on a 2xx response with a
parseable body, builds the success record with `.get`-style defaults; on
any exception, returns the normalized error record.  The function is
total: no exception escapes to the caller. -/
def get_recommendations (resp : Except String (RecBody × ℚ)) : RecResult :=
  match resp with
  | Except.ok (data, response_time) =>
      { status := "success"
        response_time := some response_time
        recommendations_count := (data.recommendations.getD []).length
        model_used := some (data.model.getD "unknown")
        request_id := some (data.requestId.getD "unknown")
        latency := some (data.latency.getD 0)
        data := some data }
  | Except.error e =>
      { status := "error"
        error := some e
        response_time := none
        recommendations_count := 0 }

/-- Normalized result of `RecommendationProbe.health_check`.  On success
the body is kept opaque (the probe never inspects it). -/
structure HealthResult where
  status : String
  response_time : Option ℚ
  data : Option String := none
  error : Option String := none
deriving DecidableEq, Repr

/-- `RecommendationProbe.health_check`: `healthy` with elapsed time and
body on success, `unhealthy` with the error message otherwise. -/
def health_check (resp : Except String (String × ℚ)) : HealthResult :=
  match resp with
  | Except.ok (health_data, elapsed) =>
      { status := "healthy", response_time := some elapsed, data := some health_data }
  | Except.error e =>
      { status := "unhealthy", error := some e, response_time := none }

/-- Parsed body of a `POST /track` response: the probe reads only the
echoed `interaction` object, kept opaque as a string. -/
structure TrackBody where
  interaction : Option String
deriving DecidableEq, Repr

/-- Normalized result of `RecommendationProbe.track_interaction`. -/
structure TrackResult where
  status : String
  interaction : Option String := none
  response_time : Option ℚ := none
  error : Option String := none
deriving DecidableEq, Repr

/-- `RecommendationProbe.track_interaction`: success echo or normalized
error record. -/
def track_interaction (resp : Except String (TrackBody × ℚ)) : TrackResult :=
  match resp with
  | Except.ok (data, elapsed) =>
      { status := "success"
        interaction := some (data.interaction.getD "")
        response_time := some elapsed }
  | Except.error e =>
      { status := "error", error := some e }

/-- Parsed body of a `POST /models/compare` response, restricted to the
fields the probe reads. -/
structure CompareBody where
  comparison : Option (List (String × String))
  totalComparisonTime : Option ℚ
deriving DecidableEq, Repr

/-- Normalized result of `RecommendationProbe.compare_models`. -/
structure CompareResult where
  status : String
  models_compared : Option ℕ := none
  total_time : Option ℚ := none
  data : Option CompareBody := none
  error : Option String := none
deriving DecidableEq, Repr

/-- `RecommendationProbe.compare_models`. -/
def compare_models (resp : Except String (CompareBody × ℚ)) : CompareResult :=
  match resp with
  | Except.ok (data, _) =>
      { status := "success"
        models_compared := some (data.comparison.getD []).length
        total_time := some (data.totalComparisonTime.getD 0)
        data := some data }
  | Except.error e =>
      { status := "error", error := some e }

/-- An outgoing HTTP request attempted by the probe, recorded as a trace
event so that claims about which operations are attempted are statable. -/
inductive ApiCall where
  | health : ApiCall
  | recommend (user_id : String) : ApiCall
  | track (user_id : String) (item_id : String) (interaction_type : String) : ApiCall
  | compare (user_id : String) : ApiCall
deriving DecidableEq, Repr

/-- Per-user slice of the probe cycle's environment: the outcome of the
user's recommend call, the draws of the random generator consumed in the
loop body (`random.choice(self.test_items)` fallback, `random.random()`
rating draw, `random.randint(1, 5)` rating), and the outcomes of the two
potential tracking calls. -/
structure UserStep where
  user_id : String
  recResp : Except String (RecBody × ℚ)
  fallbackItem : String
  viewResp : Except String (TrackBody × ℚ)
  rateDraw : ℚ
  rating : ℕ
  rateResp : Except String (TrackBody × ℚ)
deriving DecidableEq, Repr

/-- One element of the cycle report's `recommendations` list. -/
structure RecEntry where
  user_id : String
  result : RecResult
deriving DecidableEq, Repr

/-- One element of the cycle report's `interactions` list; `rating` is
present exactly on entries appended by the rate branch. -/
structure InteractionEntry where
  user_id : String
  item_id : String
  rating : Option ℕ := none
  result : TrackResult
deriving DecidableEq, Repr

/-- The cycle report's `summary` dict.  Keys absent on a branch
(short-circuit vs completed) are `none`. -/
structure Summary where
  status : String
  reason : Option String := none
  cycle_time : Option ℚ := none
  total_requests : Option ℕ := none
  successful_recommendations : Option ℕ := none
  personalized_responses : Option ℕ := none
  personalization_rate : Option ℚ := none
  avg_response_time : Option ℚ := none
deriving DecidableEq, Repr

/-- The full cycle report (`results` dict of `run_probe_cycle`);
`model_comparison = none` embeds the initial empty dict `{}`. -/
structure CycleReport where
  cycle_start : String
  health_check : HealthResult
  recommendations : List RecEntry
  interactions : List InteractionEntry
  model_comparison : Option CompareResult
  summary : Summary
deriving DecidableEq, Repr

/-- Result of processing one sampled user inside the cycle loop: the
entry appended to `recommendation_results`, the entries appended to
`results['interactions']`, and the HTTP calls attempted. -/
structure UserOutcome where
  entry : RecEntry
  inters : List InteractionEntry
  calls : List ApiCall
deriving DecidableEq, Repr

/-- Body of the per-user loop of `run_probe_cycle` (probe.py lines
206-244): get recommendations, and if the call succeeded with at least
one recommendation, track a `view` for the first item's `itemId`
(falling back to a random test item), then with `random.random() > 0.7`
additionally track a `rate` with a random rating.  The `data = none`
branch is unreachable for a success result and mirrors the fact that
Python's `rec_result['data']` access is guarded by the status check. -/
def processUser (u : UserStep) : UserOutcome :=
  let rec_result := get_recommendations u.recResp
  let entry : RecEntry := { user_id := u.user_id, result := rec_result }
  if rec_result.status = "success" ∧ 0 < rec_result.recommendations_count then
    match rec_result.data with
    | none => { entry := entry, inters := [], calls := [ApiCall.recommend u.user_id] }
    | some d =>
      match d.recommendations.getD [] with
      | [] => { entry := entry, inters := [], calls := [ApiCall.recommend u.user_id] }
      | first :: _ =>
        let item_id := first.itemId.getD u.fallbackItem
        let viewEntry : InteractionEntry :=
          { user_id := u.user_id, item_id := item_id
            result := track_interaction u.viewResp }
        if u.rateDraw > 7/10 then
          { entry := entry
            inters := [viewEntry,
              { user_id := u.user_id, item_id := item_id, rating := some u.rating
                result := track_interaction u.rateResp }]
            calls := [ApiCall.recommend u.user_id,
              ApiCall.track u.user_id item_id "view",
              ApiCall.track u.user_id item_id "rate"] }
        else
          { entry := entry
            inters := [viewEntry]
            calls := [ApiCall.recommend u.user_id,
              ApiCall.track u.user_id item_id "view"] }
  else { entry := entry, inters := [], calls := [ApiCall.recommend u.user_id] }

/-- Environment of one probe cycle: every external input consumed by
`run_probe_cycle`.  `users` is the sampled user list produced by
`random.sample(self.test_users, min(5, len(self.test_users)))` together
with each user's HTTP outcomes and random draws; `compareUser` is the
`random.choice(test_users)` pick for the comparison call. -/
structure CycleEnv where
  cycle_start : String
  healthResp : Except String (String × ℚ)
  users : List UserStep
  compareUser : String
  compareResp : Except String (CompareBody × ℚ)
  cycle_time : ℚ
deriving DecidableEq, Repr

/-- Truthiness filter of the `avg_response_time` generator expression:
`if r['result']['response_time']` keeps a response time that is neither
`None` nor `0`. -/
def truthyResponseTime (r : RecEntry) : Option ℚ :=
  match r.result.response_time with
  | some t => if t ≠ 0 then some t else none
  | none => none

/-- The non-short-circuited part of `run_probe_cycle` (probe.py lines
202-274): process every sampled user, run the model comparison, and
compute the summary statistics exactly as the Python expressions do
(`personalization_rate` and `avg_response_time` divide by
`len(recommendation_results)` when that list is non-empty, else 0). -/
def completedCycle (env : CycleEnv) : CycleReport × List ApiCall :=
    let outcomes := env.users.map processUser
    let recommendation_results := outcomes.map UserOutcome.entry
    let interactions := (outcomes.map UserOutcome.inters).flatten
    let comparison := compare_models env.compareResp
    let successful_recommendations :=
      (recommendation_results.filter (fun r => r.result.status == "success")).length
    let personalized_responses :=
      (recommendation_results.filter (fun r =>
        r.result.status == "success" && decide (0 < r.result.recommendations_count))).length
    ({ cycle_start := env.cycle_start
       health_check := health_check env.healthResp
       recommendations := recommendation_results
       interactions := interactions
       model_comparison := some comparison
       summary :=
         { status := "completed"
           cycle_time := some env.cycle_time
           total_requests := some (recommendation_results.length + 1)
           successful_recommendations := some successful_recommendations
           personalized_responses := some personalized_responses
           personalization_rate := some (if recommendation_results ≠ [] then
               (personalized_responses : ℚ) / (recommendation_results.length : ℚ) else 0)
           avg_response_time := some (if recommendation_results ≠ [] then
               (recommendation_results.filterMap truthyResponseTime).sum /
                 (recommendation_results.length : ℚ) else 0) } },
     ApiCall.health :: ((outcomes.map UserOutcome.calls).flatten ++ [ApiCall.compare env.compareUser]))

/-- `RecommendationProbe.run_probe_cycle` (probe.py lines 177-274),
returning the report together with the trace of attempted HTTP calls.
Health check first; when its status is not `healthy`, short-circuit with
the failed summary and no further call; otherwise run the completed
cycle. -/
def run_probe_cycle (env : CycleEnv) : CycleReport × List ApiCall :=
  let hc := health_check env.healthResp
  if hc.status ≠ "healthy" then
    ({ cycle_start := env.cycle_start
       health_check := hc
       recommendations := []
       interactions := []
       model_comparison := none
       summary := { status := "failed", reason := some "API unhealthy" } },
     [ApiCall.health])
  else completedCycle env

/-! ## Spec-side derived quantities

These definitions follow the spec's wording for the summary statistics
and are compared against what `run_probe_cycle` computes. -/

/-- Number of sampled users whose recommendation result has status
`success` and a positive `recommendations_count` (the spec's
`personalized_responses`). -/
def personalizedCount (users : List UserStep) : ℕ :=
  users.countP (fun u => (get_recommendations u.recResp).status == "success"
      && decide (0 < (get_recommendations u.recResp).recommendations_count))

/-- Number of sampled users whose recommendation result has status
`success` (the spec's `successful_recommendations`). -/
def successfulCount (users : List UserStep) : ℕ :=
  users.countP (fun u => (get_recommendations u.recResp).status == "success")

/-- Modelled from the spec: `avg_response_time` as the spec describes it
-- the arithmetic mean over exactly those recommendation results that
have a non-null `response_time`, and `0` when no result qualifies. -/
def spec_avg_response_time (rs : List RecEntry) : ℚ :=
  let q := rs.filterMap (fun r => r.result.response_time)
  if q = [] then 0 else q.sum / (q.length : ℚ)

/-! ## Helper lemmas about `processUser` and `run_probe_cycle` -/

theorem processUser_entry (u : UserStep) :
    (processUser u).entry = { user_id := u.user_id, result := get_recommendations u.recResp } := by
  unfold processUser
  dsimp only
  repeat' split
  all_goals rfl

theorem get_recommendations_success_shape (resp : Except String (RecBody × ℚ))
    (h : (get_recommendations resp).status = "success") :
    ∃ body rt, resp = Except.ok (body, rt) := by
  cases resp with
  | ok p => exact ⟨p.1, p.2, rfl⟩
  | error e => exact absurd h (by simp [get_recommendations])

theorem processUser_not_personalized (u : UserStep)
    (h : ¬((get_recommendations u.recResp).status = "success" ∧
        0 < (get_recommendations u.recResp).recommendations_count)) :
    processUser u =
      { entry := { user_id := u.user_id, result := get_recommendations u.recResp }
        inters := []
        calls := [ApiCall.recommend u.user_id] } := by
  unfold processUser
  dsimp only
  rw [if_neg h]

theorem processUser_personalized (u : UserStep) (body : RecBody) (rt : ℚ)
    (hresp : u.recResp = Except.ok (body, rt))
    (first : RecItem) (tail : List RecItem)
    (hrec : body.recommendations.getD [] = first :: tail) :
    processUser u =
      (if u.rateDraw > 7/10 then
        { entry := { user_id := u.user_id, result := get_recommendations u.recResp }
          inters := [{ user_id := u.user_id, item_id := first.itemId.getD u.fallbackItem
                       result := track_interaction u.viewResp },
                     { user_id := u.user_id, item_id := first.itemId.getD u.fallbackItem
                       rating := some u.rating, result := track_interaction u.rateResp }]
          calls := [ApiCall.recommend u.user_id,
                    ApiCall.track u.user_id (first.itemId.getD u.fallbackItem) "view",
                    ApiCall.track u.user_id (first.itemId.getD u.fallbackItem) "rate"] }
      else
        { entry := { user_id := u.user_id, result := get_recommendations u.recResp }
          inters := [{ user_id := u.user_id, item_id := first.itemId.getD u.fallbackItem
                       result := track_interaction u.viewResp }]
          calls := [ApiCall.recommend u.user_id,
                    ApiCall.track u.user_id (first.itemId.getD u.fallbackItem) "view"] }) := by
  unfold processUser
  dsimp only
  rw [if_pos]
  · have hdata : (get_recommendations u.recResp).data = some body := by
      rw [hresp]; rfl
    rw [hdata]
    dsimp only
    rw [hrec]
  · constructor
    · rw [hresp]; rfl
    · have : (get_recommendations u.recResp).recommendations_count = (first :: tail).length := by
        rw [hresp]
        show (body.recommendations.getD []).length = _
        rw [hrec]
      rw [this]
      exact Nat.succ_pos _

theorem run_probe_cycle_healthy (env : CycleEnv)
    (h : (health_check env.healthResp).status = "healthy") :
    run_probe_cycle env = completedCycle env := by
  unfold run_probe_cycle
  dsimp only
  rw [if_neg (by simp [h])]

theorem cycle_entries_eq (users : List UserStep) :
    (users.map processUser).map UserOutcome.entry =
      users.map (fun u => ({ user_id := u.user_id, result := get_recommendations u.recResp } : RecEntry)) := by
  rw [List.map_map]
  exact List.map_congr_left (fun u _ => processUser_entry u)

theorem cycle_personalized_eq (users : List UserStep) :
    (((users.map processUser).map UserOutcome.entry).filter (fun r =>
        r.result.status == "success" && decide (0 < r.result.recommendations_count))).length
      = personalizedCount users := by
  rw [cycle_entries_eq, ← List.countP_eq_length_filter, List.countP_map]
  rfl

theorem cycle_successful_eq (users : List UserStep) :
    (((users.map processUser).map UserOutcome.entry).filter (fun r =>
        r.result.status == "success")).length
      = successfulCount users := by
  rw [cycle_entries_eq, ← List.countP_eq_length_filter, List.countP_map]
  rfl

theorem truthy_sum_eq (l : List RecEntry) :
    (l.filterMap truthyResponseTime).sum =
      (l.filterMap (fun r => r.result.response_time)).sum := by
  induction l with
  | nil => rfl
  | cons a t ih =>
    rcases hrt : a.result.response_time with _ | t0
    · have h1 : truthyResponseTime a = none := by unfold truthyResponseTime; rw [hrt]
      simp only [List.filterMap_cons, h1, hrt, ih]
    · by_cases h0 : t0 = 0
      · have h1 : truthyResponseTime a = none := by unfold truthyResponseTime; rw [hrt]; simp [h0]
        subst h0
        simp only [List.filterMap_cons, h1, hrt, List.sum_cons, ih, zero_add]
      · have h1 : truthyResponseTime a = some t0 := by unfold truthyResponseTime; rw [hrt]; simp [h0]
        simp only [List.filterMap_cons, h1, hrt, List.sum_cons, ih]

/-! ## Claims -/

/-- C1: whenever the health check result's status is not `healthy`,
`run_probe_cycle` short-circuits: the summary is exactly
`{status: failed, reason: "API unhealthy"}`, the recommendations and
interactions collections are empty, `model_comparison` is the empty
initial dict, and the only HTTP call attempted in the whole cycle is the
health check itself (no recommendation, tracking or comparison call). -/
theorem C1_unhealthy_short_circuit (env : CycleEnv)
    (h : (health_check env.healthResp).status ≠ "healthy") :
    (run_probe_cycle env).1.summary =
        { status := "failed", reason := some "API unhealthy" } ∧
    (run_probe_cycle env).1.recommendations = [] ∧
    (run_probe_cycle env).1.interactions = [] ∧
    (run_probe_cycle env).1.model_comparison = none ∧
    (run_probe_cycle env).2 = [ApiCall.health] := by
  unfold run_probe_cycle
  dsimp only
  rw [if_pos h]
  exact ⟨rfl, rfl, rfl, rfl, rfl⟩

/-- Concrete failing-health environment used to witness `C1`. -/
def envC1 : CycleEnv :=
  { cycle_start := "2024-01-01T00:00:00"
    healthResp := Except.error "Connection refused"
    users := []
    compareUser := "user_001"
    compareResp := Except.error "not attempted"
    cycle_time := 1 }

theorem C1_unhealthy_short_circuit_witness :
    (health_check envC1.healthResp).status ≠ "healthy" ∧
    (run_probe_cycle envC1).1.summary =
      { status := "failed", reason := some "API unhealthy" } ∧
    (run_probe_cycle envC1).2 = [ApiCall.health] :=
  ⟨by decide,
   (C1_unhealthy_short_circuit envC1 (by decide)).1,
   (C1_unhealthy_short_circuit envC1 (by decide)).2.2.2.2⟩

/-- C5: `get_recommendations` is a total function of the request
outcome -- no exception propagates to its caller -- and on any failure
(transport error, timeout, non-2xx status via `raise_for_status`, or an
unparseable body, all embedded as `Except.error`) it returns exactly the
normalized record
`{status: error, error: message, response_time: null, recommendations_count: 0}`. -/
theorem C5_get_recommendations_error (e : String) :
    get_recommendations (Except.error e) =
      { status := "error", error := some e, response_time := none
        recommendations_count := 0 } := rfl

theorem C5_get_recommendations_error_witness :
    get_recommendations (Except.error "HTTPSConnectionPool: Max retries exceeded") =
      { status := "error", error := some "HTTPSConnectionPool: Max retries exceeded"
        response_time := none, recommendations_count := 0 } :=
  C5_get_recommendations_error "HTTPSConnectionPool: Max retries exceeded"

/-- C6: on a 2xx response with parseable body (`Except.ok`),
`get_recommendations` returns a success record whose
`recommendations_count` is the length of the body's `recommendations`
list (0 when the field is absent), with `model_used`, `request_id` and
`latency` defaulting to `"unknown"`, `"unknown"` and `0` respectively
when absent, `data` holding the full body, and the result is never an
error record. -/
theorem C6_get_recommendations_success_defaults (body : RecBody) (rt : ℚ) :
    (get_recommendations (Except.ok (body, rt))).status = "success" ∧
    (get_recommendations (Except.ok (body, rt))).response_time = some rt ∧
    (get_recommendations (Except.ok (body, rt))).recommendations_count =
      (match body.recommendations with
       | some l => l.length
       | none => 0) ∧
    (get_recommendations (Except.ok (body, rt))).model_used =
      some (match body.model with | some m => m | none => "unknown") ∧
    (get_recommendations (Except.ok (body, rt))).request_id =
      some (match body.requestId with | some r => r | none => "unknown") ∧
    (get_recommendations (Except.ok (body, rt))).latency =
      some (match body.latency with | some l => l | none => 0) ∧
    (get_recommendations (Except.ok (body, rt))).data = some body ∧
    (get_recommendations (Except.ok (body, rt))).status ≠ "error" := by
  obtain ⟨recs, mo, rq, la⟩ := body
  refine ⟨rfl, rfl, ?_, ?_, ?_, ?_, rfl, show ("success" : String) ≠ "error" by decide⟩
  · cases recs <;> rfl
  · cases mo <;> rfl
  · cases rq <;> rfl
  · cases la <;> rfl

theorem C6_get_recommendations_success_defaults_witness :
    (get_recommendations (Except.ok
        ({ recommendations := none, model := none, requestId := none, latency := none }, (1 : ℚ)))).recommendations_count = 0 ∧
    (get_recommendations (Except.ok
        ({ recommendations := none, model := none, requestId := none, latency := none }, (1 : ℚ)))).model_used = some "unknown" :=
  ⟨(C6_get_recommendations_success_defaults
      { recommendations := none, model := none, requestId := none, latency := none } 1).2.2.1,
   (C6_get_recommendations_success_defaults
      { recommendations := none, model := none, requestId := none, latency := none } 1).2.2.2.1⟩

/-- C2: in every non-short-circuited cycle, `personalized_responses` is
the number of sampled users whose recommendation result has status
`success` with a positive recommendation count, `personalization_rate`
is that number divided by the number of sampled users (0 when no user
was sampled), and the rate lies in `[0, 1]`. -/
theorem C2_personalization_rate (env : CycleEnv)
    (h : (health_check env.healthResp).status = "healthy") :
    (run_probe_cycle env).1.summary.personalized_responses =
        some (personalizedCount env.users) ∧
    (run_probe_cycle env).1.summary.personalization_rate =
        some (if env.users ≠ [] then
          (personalizedCount env.users : ℚ) / (env.users.length : ℚ) else 0) ∧
    (∀ q : ℚ, (run_probe_cycle env).1.summary.personalization_rate = some q →
      0 ≤ q ∧ q ≤ 1) := by
  rw [run_probe_cycle_healthy env h]
  have hlen : ((env.users.map processUser).map UserOutcome.entry).length = env.users.length := by
    simp
  have key : (completedCycle env).1.summary.personalization_rate =
      some (if env.users ≠ [] then
        (personalizedCount env.users : ℚ) / (env.users.length : ℚ) else 0) := by
    simp only [completedCycle]
    by_cases hu : env.users = []
    · rw [hu]; rfl
    · rw [if_pos (by simp [hu]), if_pos hu, cycle_personalized_eq, hlen]
  have key1 : (completedCycle env).1.summary.personalized_responses =
      some (personalizedCount env.users) := by
    simp only [completedCycle]
    rw [cycle_personalized_eq]
  refine ⟨key1, key, fun q hq => ?_⟩
  rw [key] at hq
  have hq' : q = if env.users ≠ [] then
      (personalizedCount env.users : ℚ) / (env.users.length : ℚ) else 0 :=
    (Option.some.inj hq).symm
  by_cases hu : env.users = []
  · rw [hq', if_neg (by simp [hu])]
    exact ⟨le_refl 0, by norm_num⟩
  · rw [hq', if_pos hu]
    have hpos : (0 : ℚ) < (env.users.length : ℚ) := by
      have : 0 < env.users.length := List.length_pos.mpr hu
      exact_mod_cast this
    have hle : personalizedCount env.users ≤ env.users.length :=
      List.countP_le_length _
    constructor
    · exact div_nonneg (Nat.cast_nonneg _) (Nat.cast_nonneg _)
    · exact (div_le_one hpos).mpr (by exact_mod_cast hle)

/-- Concrete two-user healthy environment used to witness `C2`: one user
gets a non-empty recommendation list, the other's call fails. -/
def envC2 : CycleEnv :=
  { cycle_start := "2024-01-01T00:00:00"
    healthResp := Except.ok ("status ok", 1/100)
    users :=
      [{ user_id := "user_001"
         recResp := Except.ok
           ({ recommendations := some [{ itemId := some "ride_003" }]
              model := some "collab-v2", requestId := some "r1", latency := some 12 }, 2)
         fallbackItem := "ride_001"
         viewResp := Except.ok ({ interaction := some "ok" }, 1/10)
         rateDraw := 1/2
         rating := 3
         rateResp := Except.ok ({ interaction := some "ok" }, 1/10) },
       { user_id := "user_002"
         recResp := Except.error "timeout"
         fallbackItem := "ride_002"
         viewResp := Except.error "not attempted"
         rateDraw := 1/2
         rating := 3
         rateResp := Except.error "not attempted" }]
    compareUser := "user_001"
    compareResp := Except.ok ({ comparison := some [("collab-v2", "ok")], totalComparisonTime := some 5 }, 5)
    cycle_time := 3 }

theorem C2_personalization_rate_witness :
    (health_check envC2.healthResp).status = "healthy" ∧
    (run_probe_cycle envC2).1.summary.personalized_responses = some 1 ∧
    (run_probe_cycle envC2).1.summary.personalization_rate = some (1/2) := by
  have h := C2_personalization_rate envC2 (by decide)
  have hp : personalizedCount envC2.users = 1 := by decide
  have hu : envC2.users ≠ [] := by decide
  refine ⟨by decide, ?_, ?_⟩
  · rw [h.1, hp]
  · rw [h.2.1, if_pos hu, hp]
    norm_num [envC2]

/-- C8: in every non-short-circuited cycle report the summary counts
form the chain
`0 ≤ personalized_responses ≤ successful_recommendations ≤ number of sampled users`:
a personalized response requires a `success` status, and both counts
range over the same per-user result list. -/
theorem C8_count_chain (env : CycleEnv)
    (h : (health_check env.healthResp).status = "healthy") :
    (run_probe_cycle env).1.summary.personalized_responses =
        some (personalizedCount env.users) ∧
    (run_probe_cycle env).1.summary.successful_recommendations =
        some (successfulCount env.users) ∧
    0 ≤ personalizedCount env.users ∧
    personalizedCount env.users ≤ successfulCount env.users ∧
    successfulCount env.users ≤ env.users.length := by
  rw [run_probe_cycle_healthy env h]
  refine ⟨?_, ?_, Nat.zero_le _, ?_, List.countP_le_length _⟩
  · simp only [completedCycle]
    rw [cycle_personalized_eq]
  · simp only [completedCycle]
    rw [cycle_successful_eq]
  · exact List.countP_mono_left (fun u _ hb => by
      exact (Bool.and_elim_left hb))

/-- Concrete environment used to witness `C8`: among two sampled users,
one has a successful call with an empty recommendations list (successful
but not personalized), one a failed call. -/
def envC8 : CycleEnv :=
  { cycle_start := "2024-01-01T00:00:00"
    healthResp := Except.ok ("ok", 1/100)
    users :=
      [{ user_id := "user_003"
         recResp := Except.ok
           ({ recommendations := some [], model := none, requestId := none, latency := none }, 1)
         fallbackItem := "ride_001"
         viewResp := Except.error "not attempted"
         rateDraw := 1/2
         rating := 3
         rateResp := Except.error "not attempted" },
       { user_id := "user_004"
         recResp := Except.error "HTTP 500"
         fallbackItem := "ride_002"
         viewResp := Except.error "not attempted"
         rateDraw := 1/2
         rating := 3
         rateResp := Except.error "not attempted" }]
    compareUser := "user_003"
    compareResp := Except.error "HTTP 500"
    cycle_time := 3 }

theorem C8_count_chain_witness :
    (health_check envC8.healthResp).status = "healthy" ∧
    (run_probe_cycle envC8).1.summary.personalized_responses = some 0 ∧
    (run_probe_cycle envC8).1.summary.successful_recommendations = some 1 ∧
    personalizedCount envC8.users ≤ successfulCount envC8.users ∧
    successfulCount envC8.users ≤ envC8.users.length := by
  have h := C8_count_chain envC8 (by decide)
  have hp : personalizedCount envC8.users = 0 := by decide
  have hs : successfulCount envC8.users = 1 := by decide
  exact ⟨by decide, by rw [h.1, hp], by rw [h.2.1, hs], h.2.2.2.1, h.2.2.2.2⟩

/-- C9: in every non-short-circuited cycle report, `total_requests` is
the number of sampled users plus one: only the per-user recommendation
calls and the single model-comparison call are counted (the `+ 1`),
while the health-check call and the interaction-tracking calls do not
enter the count. -/
theorem C9_total_requests (env : CycleEnv)
    (h : (health_check env.healthResp).status = "healthy") :
    (run_probe_cycle env).1.summary.total_requests = some (env.users.length + 1) := by
  rw [run_probe_cycle_healthy env h]
  simp only [completedCycle]
  rw [List.length_map, List.length_map]

/-- Concrete environment used to witness `C9`: two sampled users give
`total_requests = 3` even though a health check, two tracking calls and
one comparison call also happen in the cycle. -/
def envC9 : CycleEnv :=
  { cycle_start := "2024-01-01T00:00:00"
    healthResp := Except.ok ("ok", 1/100)
    users :=
      [{ user_id := "user_001"
         recResp := Except.ok
           ({ recommendations := some [{ itemId := some "ride_003" }]
              model := some "collab-v2", requestId := some "r1", latency := some 12 }, 2)
         fallbackItem := "ride_001"
         viewResp := Except.ok ({ interaction := some "ok" }, 1/10)
         rateDraw := 9/10
         rating := 4
         rateResp := Except.ok ({ interaction := some "ok" }, 1/10) },
       { user_id := "user_002"
         recResp := Except.ok
           ({ recommendations := some [{ itemId := some "ride_005" }]
              model := some "collab-v2", requestId := some "r2", latency := some 15 }, 1)
         fallbackItem := "ride_002"
         viewResp := Except.ok ({ interaction := some "ok" }, 1/10)
         rateDraw := 1/2
         rating := 2
         rateResp := Except.error "not attempted" }]
    compareUser := "user_002"
    compareResp := Except.ok ({ comparison := some [("collab-v2", "ok")], totalComparisonTime := some 5 }, 5)
    cycle_time := 3 }

theorem C9_total_requests_witness :
    (health_check envC9.healthResp).status = "healthy" ∧
    (run_probe_cycle envC9).1.summary.total_requests = some 3 := by
  have h := C9_total_requests envC9 (by decide)
  exact ⟨by decide, by rw [h]; decide⟩

/-- Concrete environment refuting claim C3: two sampled users, one
successful recommendation call with response time `2`, one failed call
with a null response time.  The code divides the qualifying sum `2` by
the number of all results (`2`), yielding `1`; the claimed mean over
qualifying results alone would be `2/1 = 2`. -/
def envC3 : CycleEnv :=
  { cycle_start := "2024-01-01T00:00:00"
    healthResp := Except.ok ("ok", 1/100)
    users :=
      [{ user_id := "user_001"
         recResp := Except.ok
           ({ recommendations := some [{ itemId := some "ride_003" }]
              model := some "collab-v2", requestId := some "r1", latency := some 12 }, 2)
         fallbackItem := "ride_001"
         viewResp := Except.ok ({ interaction := some "ok" }, 1/10)
         rateDraw := 1/2
         rating := 3
         rateResp := Except.error "not attempted" },
       { user_id := "user_002"
         recResp := Except.error "timeout"
         fallbackItem := "ride_002"
         viewResp := Except.error "not attempted"
         rateDraw := 1/2
         rating := 3
         rateResp := Except.error "not attempted" }]
    compareUser := "user_001"
    compareResp := Except.ok ({ comparison := some [("collab-v2", "ok")], totalComparisonTime := some 5 }, 5)
    cycle_time := 3 }

theorem C3_counterexample :
    (run_probe_cycle envC3).1.summary.avg_response_time = some 1 ∧
    spec_avg_response_time (run_probe_cycle envC3).1.recommendations = 2 ∧
    (run_probe_cycle envC3).1.summary.avg_response_time ≠
      some (spec_avg_response_time (run_probe_cycle envC3).1.recommendations) := by
  have hcycle : run_probe_cycle envC3 = completedCycle envC3 :=
    run_probe_cycle_healthy envC3 (by decide)
  have h1 : (run_probe_cycle envC3).1.summary.avg_response_time = some 1 := by
    rw [hcycle]
    norm_num [completedCycle, envC3, processUser, get_recommendations,
      track_interaction, truthyResponseTime, List.filterMap_cons, List.filterMap_nil,
      List.sum_cons, List.sum_nil, List.length_cons, List.cons_ne_nil]
  have h2 : spec_avg_response_time (run_probe_cycle envC3).1.recommendations = 2 := by
    rw [hcycle]
    norm_num [completedCycle, envC3, processUser, get_recommendations,
      track_interaction, spec_avg_response_time, List.filterMap_cons, List.filterMap_nil,
      List.sum_cons, List.sum_nil, List.length_cons]
  exact ⟨h1, h2, by rw [h1, h2]; norm_num⟩

/-- C3 (amended): in every non-short-circuited cycle,
`avg_response_time` equals the sum of the non-null response times of the
per-user recommendation results divided by the number of sampled users
(not by the number of qualifying results), and is 0 when no user was
sampled; no division fault can occur since the division is guarded by
the non-emptiness test. -/
theorem C3_avg_response_time_amended (env : CycleEnv)
    (h : (health_check env.healthResp).status = "healthy") :
    (run_probe_cycle env).1.summary.avg_response_time =
      some (if env.users ≠ [] then
        (env.users.filterMap (fun u => (get_recommendations u.recResp).response_time)).sum
          / (env.users.length : ℚ) else 0) := by
  rw [run_probe_cycle_healthy env h]
  simp only [completedCycle]
  by_cases hu : env.users = []
  · rw [hu]; rfl
  · rw [if_pos (by simp [hu]), if_pos hu, truthy_sum_eq, cycle_entries_eq,
      List.filterMap_map, List.length_map]
    rfl

/-- Concrete environment used to witness the amended C3: response times
`2` and null give `avg_response_time = 2/2 = 1`. -/
def envC3w : CycleEnv :=
  { cycle_start := "2024-01-01T00:00:00"
    healthResp := Except.ok ("ok", 1/100)
    users :=
      [{ user_id := "user_005"
         recResp := Except.ok
           ({ recommendations := some [{ itemId := some "ride_004" }]
              model := some "collab-v2", requestId := some "r9", latency := some 7 }, 2)
         fallbackItem := "ride_001"
         viewResp := Except.ok ({ interaction := some "ok" }, 1/10)
         rateDraw := 1/2
         rating := 3
         rateResp := Except.error "not attempted" },
       { user_id := "user_006"
         recResp := Except.error "connection reset"
         fallbackItem := "ride_002"
         viewResp := Except.error "not attempted"
         rateDraw := 1/2
         rating := 3
         rateResp := Except.error "not attempted" }]
    compareUser := "user_005"
    compareResp := Except.error "not relevant"
    cycle_time := 3 }

theorem C3_avg_response_time_amended_witness :
    (health_check envC3w.healthResp).status = "healthy" ∧
    (run_probe_cycle envC3w).1.summary.avg_response_time = some 1 := by
  have h := C3_avg_response_time_amended envC3w (by decide)
  refine ⟨by decide, ?_⟩
  rw [h]
  norm_num [envC3w, get_recommendations, List.filterMap_cons, List.filterMap_nil,
    List.sum_cons, List.sum_nil, List.length_cons, List.cons_ne_nil]

/-- Recognizer for interaction-tracking calls of a given type in the
call trace. -/
def isTrackOfType (ty : String) (c : ApiCall) : Bool :=
  match c with
  | ApiCall.track _ _ t => t == ty
  | _ => false

/-- Concrete environment refuting claim C4: the single sampled user's
recommendation call succeeds with one item and the cycle's random draw
is `1/5`, which is below `0.3`; the claim then demands a second `rate`
tracking call, but the code (`random.random() > 0.7`) issues only the
`view` call. -/
def envC4 : CycleEnv :=
  { cycle_start := "2024-01-01T00:00:00"
    healthResp := Except.ok ("ok", 1/100)
    users :=
      [{ user_id := "user_001"
         recResp := Except.ok
           ({ recommendations := some [{ itemId := some "ride_003" }]
              model := some "collab-v2", requestId := some "r1", latency := some 12 }, 2)
         fallbackItem := "ride_001"
         viewResp := Except.ok ({ interaction := some "ok" }, 1/10)
         rateDraw := 1/5
         rating := 3
         rateResp := Except.ok ({ interaction := some "ok" }, 1/10) }]
    compareUser := "user_001"
    compareResp := Except.ok ({ comparison := some [("collab-v2", "ok")], totalComparisonTime := some 5 }, 5)
    cycle_time := 3 }

theorem C4_counterexample :
    (envC4.users.map UserStep.rateDraw) = [1/5] ∧
    (1/5 : ℚ) < 3/10 ∧
    ((run_probe_cycle envC4).1.interactions.map InteractionEntry.rating) = [none] ∧
    ((run_probe_cycle envC4).2.filter (isTrackOfType "rate")) = [] ∧
    ((run_probe_cycle envC4).2.filter (isTrackOfType "view")).length = 1 := by
  have hcycle : run_probe_cycle envC4 = completedCycle envC4 :=
    run_probe_cycle_healthy envC4 (by decide)
  refine ⟨by norm_num [envC4], by norm_num, ?_, ?_, ?_⟩ <;>
    · rw [hcycle]
      norm_num [completedCycle, envC4, processUser, get_recommendations,
        track_interaction, isTrackOfType, List.filter_cons, List.filter_nil,
        List.filter_append]
      try decide

/-- C4 (amended): for a sampled user whose recommendation call succeeded
with at least one recommendation, the second `rate` tracking call for
the same item (recording the random rating, which lies in `[1, 5]` by
`random.randint`'s contract, embedded as the hypothesis on `rating`) is
issued exactly when the random draw is strictly above `0.7` -- not when
it is below `0.3` -- while a draw at or below `0.7` issues only the
`view` call.  (The success probability is still 0.3 for a uniform
draw.) -/
theorem C4_rate_draw_amended (u : UserStep)
    (hs : (get_recommendations u.recResp).status = "success")
    (hn : 0 < (get_recommendations u.recResp).recommendations_count)
    (hr : 1 ≤ u.rating ∧ u.rating ≤ 5) :
    ∃ item_id : String,
      (7/10 < u.rateDraw →
        (processUser u).inters =
          [{ user_id := u.user_id, item_id := item_id
             result := track_interaction u.viewResp },
           { user_id := u.user_id, item_id := item_id, rating := some u.rating
             result := track_interaction u.rateResp }] ∧
        (processUser u).calls =
          [ApiCall.recommend u.user_id, ApiCall.track u.user_id item_id "view",
           ApiCall.track u.user_id item_id "rate"] ∧
        1 ≤ u.rating ∧ u.rating ≤ 5) ∧
      (u.rateDraw ≤ 7/10 →
        (processUser u).inters =
          [{ user_id := u.user_id, item_id := item_id
             result := track_interaction u.viewResp }] ∧
        (processUser u).calls =
          [ApiCall.recommend u.user_id, ApiCall.track u.user_id item_id "view"]) := by
  obtain ⟨body, rt, hresp⟩ := get_recommendations_success_shape u.recResp hs
  have hcount : (get_recommendations u.recResp).recommendations_count =
      (body.recommendations.getD []).length := by rw [hresp]; rfl
  rcases hrec : body.recommendations.getD [] with _ | ⟨first, tail⟩
  · rw [hcount, hrec] at hn
    exact absurd hn (by decide)
  · refine ⟨first.itemId.getD u.fallbackItem, ?_, ?_⟩
    · intro hdraw
      rw [processUser_personalized u body rt hresp first tail hrec, if_pos hdraw]
      exact ⟨rfl, rfl, hr.1, hr.2⟩
    · intro hdraw
      rw [processUser_personalized u body rt hresp first tail hrec, if_neg (not_lt.mpr hdraw)]
      exact ⟨rfl, rfl⟩

/-- Concrete user step used to witness the amended C4: draw `9/10` is
above `0.7`, so both a `view` and a `rate` entry are recorded, the
latter carrying rating `4`. -/
def u4w : UserStep :=
  { user_id := "user_007"
    recResp := Except.ok
      ({ recommendations := some [{ itemId := some "ride_003" }]
         model := some "collab-v2", requestId := some "r1", latency := some 12 }, 2)
    fallbackItem := "ride_001"
    viewResp := Except.ok ({ interaction := some "ok" }, 1/10)
    rateDraw := 9/10
    rating := 4
    rateResp := Except.ok ({ interaction := some "ok" }, 1/10) }

theorem C4_rate_draw_amended_witness :
    7/10 < u4w.rateDraw ∧
    (processUser u4w).inters.length = 2 ∧
    ((processUser u4w).inters.map InteractionEntry.rating) = [none, some 4] := by
  obtain ⟨item_id, hhi, _⟩ :=
    C4_rate_draw_amended u4w (by decide) (by decide) ⟨by decide, by decide⟩
  have hdraw : (7/10 : ℚ) < u4w.rateDraw := by norm_num [u4w]
  obtain ⟨hint, hcalls, _⟩ := hhi hdraw
  refine ⟨hdraw, ?_, ?_⟩ <;> rw [hint] <;> rfl

/-- C7: for each sampled user, a `view` interaction-tracking call is
issued exactly when the user's recommendation call succeeded with at
least one recommendation, and then exactly once, for the first returned
item's `itemId` (falling back to the randomly chosen test item when the
first item lacks that field); otherwise -- in particular when the
returned recommendations list is empty -- no tracking call is made, no
interaction entry is recorded, and the user does not count toward
`personalized_responses`. -/
theorem C7_view_tracking (u : UserStep) :
    (((get_recommendations u.recResp).status = "success" ∧
        0 < (get_recommendations u.recResp).recommendations_count) →
      ∃ body rt first tail,
        u.recResp = Except.ok (body, rt) ∧
        body.recommendations.getD [] = first :: tail ∧
        (processUser u).calls.filter (isTrackOfType "view") =
          [ApiCall.track u.user_id (first.itemId.getD u.fallbackItem) "view"]) ∧
    (¬((get_recommendations u.recResp).status = "success" ∧
        0 < (get_recommendations u.recResp).recommendations_count) →
      (processUser u).calls.filter (isTrackOfType "view") = [] ∧
      (processUser u).inters = [] ∧
      personalizedCount [u] = 0) := by
  constructor
  · rintro ⟨hs, hn⟩
    obtain ⟨body, rt, hresp⟩ := get_recommendations_success_shape u.recResp hs
    have hcount : (get_recommendations u.recResp).recommendations_count =
        (body.recommendations.getD []).length := by rw [hresp]; rfl
    rcases hrec : body.recommendations.getD [] with _ | ⟨first, tail⟩
    · rw [hcount, hrec] at hn
      exact absurd hn (by decide)
    · refine ⟨body, rt, first, tail, hresp, hrec, ?_⟩
      rw [processUser_personalized u body rt hresp first tail hrec]
      by_cases hdraw : u.rateDraw > 7/10
      · rw [if_pos hdraw]; rfl
      · rw [if_neg hdraw]; rfl
  · intro hc
    rw [processUser_not_personalized u hc]
    refine ⟨rfl, rfl, ?_⟩
    have hb : ((get_recommendations u.recResp).status == "success"
        && decide (0 < (get_recommendations u.recResp).recommendations_count)) = false := by
      by_contra hbt
      rw [Bool.not_eq_false, Bool.and_eq_true, beq_iff_eq, decide_eq_true_eq] at hbt
      exact hc hbt
    unfold personalizedCount
    simp only [List.countP_cons, List.countP_nil, hb]
    rfl

/-- Concrete user step used to witness `C7`: successful call whose first
item carries `itemId = "ride_003"`. -/
def u7w : UserStep :=
  { user_id := "user_008"
    recResp := Except.ok
      ({ recommendations := some [{ itemId := some "ride_003" }]
         model := some "collab-v2", requestId := some "r1", latency := some 12 }, 2)
    fallbackItem := "ride_001"
    viewResp := Except.ok ({ interaction := some "ok" }, 1/10)
    rateDraw := 1/2
    rating := 3
    rateResp := Except.error "not attempted" }

theorem C7_view_tracking_witness :
    ((get_recommendations u7w.recResp).status = "success" ∧
      0 < (get_recommendations u7w.recResp).recommendations_count) ∧
    (∃ body rt first tail,
      u7w.recResp = Except.ok (body, rt) ∧
      body.recommendations.getD [] = first :: tail ∧
      (processUser u7w).calls.filter (isTrackOfType "view") =
        [ApiCall.track u7w.user_id (first.itemId.getD u7w.fallbackItem) "view"]) :=
  ⟨⟨by decide, by decide⟩, (C7_view_tracking u7w).1 ⟨by decide, by decide⟩⟩

theorem processUser_inters_shape (u : UserStep) :
    (processUser u).inters = [] ∨
    (∃ v : InteractionEntry, (processUser u).inters = [v] ∧
      v.user_id = u.user_id ∧ v.rating = none) ∨
    (∃ v w : InteractionEntry, (processUser u).inters = [v, w] ∧
      v.user_id = u.user_id ∧ w.user_id = u.user_id ∧
      v.rating = none ∧ w.rating = some u.rating) := by
  unfold processUser
  dsimp only
  repeat' split
  all_goals first
    | exact Or.inl rfl
    | exact Or.inr (Or.inl ⟨_, rfl, rfl, rfl⟩)
    | exact Or.inr (Or.inr ⟨_, _, rfl, rfl, rfl, rfl, rfl⟩)

theorem processUser_inters_nonempty (u : UserStep)
    (hne : (processUser u).inters ≠ []) :
    (get_recommendations u.recResp).status = "success" ∧
    0 < (get_recommendations u.recResp).recommendations_count := by
  by_contra hc
  rw [processUser_not_personalized u hc] at hne
  exact hne rfl

theorem processUser_inters_uid (u : UserStep) (i : InteractionEntry)
    (hi : i ∈ (processUser u).inters) : i.user_id = u.user_id := by
  rcases processUser_inters_shape u with h | ⟨v, h, hvu, _⟩ | ⟨v, w, h, hvu, hwu, _, _⟩ <;>
    rw [h] at hi
  · exact absurd hi (List.not_mem_nil i)
  · rw [List.mem_singleton] at hi
    rw [hi]
    exact hvu
  · rcases List.mem_cons.mp hi with h1 | h1
    · rw [h1]; exact hvu
    · rw [List.mem_singleton] at h1
      rw [h1]
      exact hwu

theorem processUser_inters_length (u : UserStep) :
    (processUser u).inters.length ≤ 2 := by
  rcases processUser_inters_shape u with h | ⟨v, h, _, _⟩ | ⟨v, w, h, _, _, _, _⟩ <;>
    rw [h] <;> simp

theorem inters_flatten_length (users : List UserStep) :
    ((users.map processUser).map UserOutcome.inters).flatten.length ≤ 2 * users.length := by
  induction users with
  | nil => simp
  | cons u t ih =>
    simp only [List.map_cons, List.flatten_cons, List.length_append, List.length_cons]
    have := processUser_inters_length u
    omega

theorem inters_flatten_mem (users : List UserStep) (i : InteractionEntry)
    (hi : i ∈ ((users.map processUser).map UserOutcome.inters).flatten) :
    ∃ u, u ∈ users ∧ i.user_id = u.user_id ∧
      (get_recommendations u.recResp).status = "success" ∧
      0 < (get_recommendations u.recResp).recommendations_count := by
  rw [List.map_map, List.mem_flatten] at hi
  obtain ⟨l, hl, hil⟩ := hi
  rw [List.mem_map] at hl
  obtain ⟨u, hu, hlu⟩ := hl
  have hil' : i ∈ (processUser u).inters := by
    rw [← hlu] at hil
    exact hil
  exact ⟨u, hu, processUser_inters_uid u i hil',
    processUser_inters_nonempty u (List.ne_nil_of_mem hil')⟩

theorem processUser_filter_none_le (u : UserStep) (x : String) :
    ((processUser u).inters.filter
      (fun i => i.user_id == x && i.rating.isNone)).length ≤ 1 := by
  rcases processUser_inters_shape u with h | ⟨v, h, _, _⟩ | ⟨v, w, h, _, _, hv, hw⟩ <;> rw [h]
  · simp
  · exact le_trans (List.length_filter_le _ _) (by simp)
  · have hpw : (w.user_id == x && w.rating.isNone) = false := by
      rw [hw]
      simp
    have : ([v, w].filter (fun i => i.user_id == x && i.rating.isNone)) =
        ([v].filter (fun i => i.user_id == x && i.rating.isNone)) := by
      simp only [List.filter_cons, List.filter_nil, hpw]
      split <;> rfl
    rw [this]
    exact le_trans (List.length_filter_le _ _) (by simp)

theorem processUser_filter_some_le (u : UserStep) (x : String) :
    ((processUser u).inters.filter
      (fun i => i.user_id == x && i.rating.isSome)).length ≤ 1 := by
  rcases processUser_inters_shape u with h | ⟨v, h, _, hv⟩ | ⟨v, w, h, _, _, hv, hw⟩ <;> rw [h]
  · simp
  · exact le_trans (List.length_filter_le _ _) (by simp)
  · have hpv : (v.user_id == x && v.rating.isSome) = false := by
      rw [hv]
      simp
    have : ([v, w].filter (fun i => i.user_id == x && i.rating.isSome)) =
        ([w].filter (fun i => i.user_id == x && i.rating.isSome)) := by
      simp only [List.filter_cons, List.filter_nil, hpv]
      simp
    rw [this]
    exact le_trans (List.length_filter_le _ _) (by simp)

theorem processUser_filter_other (u : UserStep) (x : String) (hx : u.user_id ≠ x)
    (q : InteractionEntry → Bool) :
    (processUser u).inters.filter (fun i => i.user_id == x && q i) = [] := by
  rw [List.filter_eq_nil_iff]
  intro i hi
  have huid := processUser_inters_uid u i hi
  simp [huid, hx]

theorem filter_flatten_le (x : String) (q : InteractionEntry → Bool) (n : ℕ)
    (hn : ∀ u : UserStep,
      ((processUser u).inters.filter (fun i => i.user_id == x && q i)).length ≤ n)
    (users : List UserStep) (hnd : (users.map UserStep.user_id).Nodup) :
    (((users.map processUser).map UserOutcome.inters).flatten.filter
        (fun i => i.user_id == x && q i)).length ≤ n := by
  induction users with
  | nil => simp
  | cons u t ih =>
    rw [List.map_cons, List.map_cons, List.flatten_cons, List.filter_append,
      List.length_append]
    rw [List.map_cons] at hnd
    have hnd' : (t.map UserStep.user_id).Nodup := (List.nodup_cons.mp hnd).2
    by_cases hx : u.user_id = x
    · have htail : (((t.map processUser).map UserOutcome.inters).flatten.filter
          (fun i => i.user_id == x && q i)) = [] := by
        rw [List.filter_eq_nil_iff]
        intro i hi
        obtain ⟨u', hu', huid, _⟩ := inters_flatten_mem t i hi
        have hne : u'.user_id ≠ x := by
          intro hcon
          exact (List.nodup_cons.mp hnd).1 (by
            rw [hx, ← hcon]
            exact List.mem_map_of_mem UserStep.user_id hu')
        simp [huid, hne]
      rw [htail]
      simpa using hn u
    · rw [processUser_filter_other u x hx q]
      simpa using ih hnd'

/-- C10: in every cycle report built from a distinct user sample (as
`random.sample` guarantees, embedded as the `Nodup` hypothesis), the
interactions list holds at most two entries per sampled user -- at most
one `view` entry (no `rating` key) and at most one `rate` entry
(carrying a `rating` key) -- every entry belongs to a sampled user whose
recommendation call succeeded with a positive recommendation count, and
the list's length is at most twice the number of sampled users. -/
theorem C10_interactions_invariant (env : CycleEnv)
    (h : (health_check env.healthResp).status = "healthy")
    (hnd : (env.users.map UserStep.user_id).Nodup) :
    (run_probe_cycle env).1.interactions.length ≤ 2 * env.users.length ∧
    (∀ i ∈ (run_probe_cycle env).1.interactions, ∃ u, u ∈ env.users ∧
      i.user_id = u.user_id ∧
      (get_recommendations u.recResp).status = "success" ∧
      0 < (get_recommendations u.recResp).recommendations_count) ∧
    (∀ x : String,
      ((run_probe_cycle env).1.interactions.filter
          (fun i => i.user_id == x)).length ≤ 2 ∧
      ((run_probe_cycle env).1.interactions.filter
          (fun i => i.user_id == x && i.rating.isNone)).length ≤ 1 ∧
      ((run_probe_cycle env).1.interactions.filter
          (fun i => i.user_id == x && i.rating.isSome)).length ≤ 1) := by
  rw [run_probe_cycle_healthy env h]
  have hint : (completedCycle env).1.interactions =
      ((env.users.map processUser).map UserOutcome.inters).flatten := by
    simp only [completedCycle]
  rw [hint]
  refine ⟨inters_flatten_length env.users, inters_flatten_mem env.users,
    fun x => ⟨?_, ?_, ?_⟩⟩
  · have hb : ∀ u : UserStep,
        ((processUser u).inters.filter
          (fun i => i.user_id == x && (fun _ => true) i)).length ≤ 2 :=
      fun u => le_trans (List.length_filter_le _ _) (processUser_inters_length u)
    have hmain := filter_flatten_le x (fun _ => true) 2 hb env.users hnd
    have heq : (((env.users.map processUser).map UserOutcome.inters).flatten.filter
          (fun i => i.user_id == x)) =
        (((env.users.map processUser).map UserOutcome.inters).flatten.filter
          (fun i => i.user_id == x && (fun _ => true) i)) :=
      List.filter_congr (fun i _ => by simp)
    rw [heq]
    exact hmain
  · exact filter_flatten_le x (fun i => i.rating.isNone) 1
      (fun u => processUser_filter_none_le u x) env.users hnd
  · exact filter_flatten_le x (fun i => i.rating.isSome) 1
      (fun u => processUser_filter_some_le u x) env.users hnd

/-- Concrete environment used to witness `C10`: two distinct sampled
users, the first with both a `view` and a `rate` entry (draw `9/10`),
the second with only a `view` entry. -/
def envC10 : CycleEnv :=
  { cycle_start := "2024-01-01T00:00:00"
    healthResp := Except.ok ("ok", 1/100)
    users :=
      [{ user_id := "user_001"
         recResp := Except.ok
           ({ recommendations := some [{ itemId := some "ride_003" }]
              model := some "collab-v2", requestId := some "r1", latency := some 12 }, 2)
         fallbackItem := "ride_001"
         viewResp := Except.ok ({ interaction := some "ok" }, 1/10)
         rateDraw := 9/10
         rating := 4
         rateResp := Except.ok ({ interaction := some "ok" }, 1/10) },
       { user_id := "user_002"
         recResp := Except.ok
           ({ recommendations := some [{ itemId := some "ride_005" }]
              model := some "collab-v2", requestId := some "r2", latency := some 15 }, 1)
         fallbackItem := "ride_002"
         viewResp := Except.ok ({ interaction := some "ok" }, 1/10)
         rateDraw := 1/2
         rating := 2
         rateResp := Except.error "not attempted" }]
    compareUser := "user_002"
    compareResp := Except.ok ({ comparison := some [("collab-v2", "ok")], totalComparisonTime := some 5 }, 5)
    cycle_time := 3 }

theorem C10_interactions_invariant_witness :
    (health_check envC10.healthResp).status = "healthy" ∧
    (envC10.users.map UserStep.user_id).Nodup ∧
    (run_probe_cycle envC10).1.interactions.length ≤ 2 * envC10.users.length ∧
    ((run_probe_cycle envC10).1.interactions.filter
        (fun i => i.user_id == "user_001")).length ≤ 2 := by
  have h := C10_interactions_invariant envC10 (by decide) (by decide)
  exact ⟨by decide, by decide, h.1, (h.2.2 "user_001").1⟩
